import Mathlib

/-!
Verification development for the OctoFit tracker profile core
(models.py, storage.py, views.py, serializers.py).

Modelling conventions:
- Python datetimes are modelled as abstract ISO strings; datetime.isoformat and
  datetime.fromisoformat are mutually inverse on them, so both are the
  identity on the modelled strings.  Each constructor that calls
  datetime.now takes an explicit now argument.
- Python ints are modelled as Int.
- JSON values are modelled by the inductive Json below; a persisted file is
  modelled by FileData (absent, undecodable bytes, or a Json value).
- Python exceptions are modelled by PyError; functions that can raise return
  an Except or a dedicated outcome type.  In-place mutation that happens
  before a raise is modelled by returning the mutated state together with
  the error (UpdateOutcome.raised).
- Decoding from Json (UserProfile.from_dict at the Json level) can meet
  values that Python would silently accept but that lie outside the typed
  model (for example a non-string role, which CPython assigns as-is).
  Those cases are mapped to the explicit marker Dec.outside; no theorem in
  this file depends on them.
- Error message texts are abbreviated (quotes around interpolated values
  are dropped); no claim depends on the exact message text.
-/

namespace Octofit

/-- JSON values, as produced by json.load / consumed by json.dump. -/
inductive Json where
  | null
  | bool (b : Bool)
  | int (n : Int)
  | str (s : String)
  | arr (xs : List Json)
  | obj (kvs : List (String × Json))

/-- Python dict.get over a JSON object modelled as an association list.
All objects built by this program have unique keys, so first-match lookup
agrees with Python dicts. -/
def pyGet (kvs : List (String × Json)) (k : String) : Option Json :=
  (kvs.find? (fun kv => kv.1 == k)).map (fun kv => kv.2)

/-- Python key-membership test on a JSON object. -/
def pyMem (kvs : List (String × Json)) (k : String) : Bool :=
  (kvs.find? (fun kv => kv.1 == k)).isSome

/-- UserRole enum from models.py. -/
inductive UserRole where
  | student
  | gym_teacher
deriving DecidableEq, Repr

/-- The .value payload of each enum member. -/
def UserRole.value : UserRole → String
  | UserRole.student => "student"
  | UserRole.gym_teacher => "gym_teacher"

/-- The enum constructor UserRole(s): the member whose value is s, if any. -/
def UserRole.ofString (s : String) : Option UserRole :=
  if s = "student" then some UserRole.student
  else if s = "gym_teacher" then some UserRole.gym_teacher
  else none

/-- The role argument of UserProfile.init: Python accepts either a string
or an already-constructed UserRole member. -/
inductive RoleArg where
  | str (s : String)
  | enum (r : UserRole)
deriving DecidableEq, Repr

/-- Python exceptions relevant to this program. -/
inductive PyError where
  | valueError (msg : String)
  | typeError (msg : String)
  | attributeError (msg : String)
deriving DecidableEq, Repr

def ageValidationMsg : String := "Age must be a valid integer between 0 and 150"

def invalidRoleCtorMsg : String := "Invalid role. Must be student or gym_teacher"

/-- Raw message of ValueError raised by UserRole(s) itself (used by
ProfileStorage.update_profile, which does not wrap the enum error). -/
def invalidRoleEnumMsg : String := "is not a valid UserRole"

/-- ActivityEntry from models.py.  timestamp is the modelled datetime. -/
structure ActivityEntry where
  activity_type : String
  duration_minutes : Int
  calories_burned : Int
  timestamp : String
  notes : String
deriving DecidableEq, Repr

/-- ActivityEntry.init: assigns the fields and stamps datetime.now. -/
def ActivityEntry.init (activity_type : String) (duration_minutes calories_burned : Int)
    (notes : String) (now : String) : ActivityEntry :=
  { activity_type := activity_type
    duration_minutes := duration_minutes
    calories_burned := calories_burned
    timestamp := now
    notes := notes }

/-- ActivityEntry.to_dict from models.py. -/
def ActivityEntry.to_dict (a : ActivityEntry) : Json :=
  Json.obj
    [ ("activity_type", Json.str a.activity_type)
    , ("duration_minutes", Json.int a.duration_minutes)
    , ("calories_burned", Json.int a.calories_burned)
    , ("timestamp", Json.str a.timestamp)
    , ("notes", Json.str a.notes) ]

/-- UserProfile from models.py. -/
structure UserProfile where
  user_id : String
  name : String
  age : Int
  role : UserRole
  activity_history : List ActivityEntry
  created_at : String
deriving DecidableEq, Repr

/-- UserProfile.init: validates age, converts a string role through the
UserRole enum (rejecting unknown strings), accepts an enum role as given,
and starts with an empty activity history and created_at = now.
Raising in Python means no object exists, modelled by Except.error. -/
def UserProfile.init (user_id name : String) (age : Int) (role : RoleArg)
    (now : String) : Except PyError UserProfile :=
  if age < 0 ∨ age > 150 then
    Except.error (PyError.valueError ageValidationMsg)
  else
    match role with
    | RoleArg.str s =>
      match UserRole.ofString s with
      | some r =>
        Except.ok
          { user_id := user_id, name := name, age := age, role := r
            activity_history := [], created_at := now }
      | none => Except.error (PyError.valueError invalidRoleCtorMsg)
    | RoleArg.enum r =>
      Except.ok
        { user_id := user_id, name := name, age := age, role := r
          activity_history := [], created_at := now }

/-- UserProfile.add_activity: appends a fresh entry and returns it. -/
def UserProfile.add_activity (p : UserProfile) (activity_type : String)
    (duration_minutes calories_burned : Int) (notes : String) (now : String) :
    UserProfile × ActivityEntry :=
  let a := ActivityEntry.init activity_type duration_minutes calories_burned notes now
  ({ p with activity_history := p.activity_history ++ [a] }, a)

def UserProfile.get_total_activities (p : UserProfile) : Nat :=
  p.activity_history.length

def UserProfile.get_total_activity_time (p : UserProfile) : Int :=
  (p.activity_history.map ActivityEntry.duration_minutes).sum

def UserProfile.get_total_calories_burned (p : UserProfile) : Int :=
  (p.activity_history.map ActivityEntry.calories_burned).sum

/-- The derived stats object embedded by UserProfile.to_dict. -/
def UserProfile.statsJson (p : UserProfile) : Json :=
  Json.obj
    [ ("total_activities", Json.int (p.get_total_activities : Int))
    , ("total_activity_time_minutes", Json.int p.get_total_activity_time)
    , ("total_calories_burned", Json.int p.get_total_calories_burned) ]

/-- UserProfile.to_dict with the stats slot held abstract; to_dict below
instantiates it with the recomputed stats.  Keeping the slot abstract lets
us state that decoding never reads it. -/
def UserProfile.to_dict_withStats (p : UserProfile) (statsVal : Json) : Json :=
  Json.obj
    [ ("user_id", Json.str p.user_id)
    , ("name", Json.str p.name)
    , ("age", Json.int p.age)
    , ("role", Json.str p.role.value)
    , ("created_at", Json.str p.created_at)
    , ("activity_history", Json.arr (p.activity_history.map ActivityEntry.to_dict))
    , ("stats", statsVal) ]

/-- UserProfile.to_dict from models.py. -/
def UserProfile.to_dict (p : UserProfile) : Json :=
  p.to_dict_withStats p.statsJson

/-- Result of decoding a Json value through Python code that may raise:
ok, raised an exception, or reached a value Python would accept but the
typed model cannot represent (see the module comment). -/
inductive Dec (α : Type) where
  | ok (a : α)
  | raised (e : PyError)
  | outside
deriving Repr

/-- The timestamp-restore step of ActivityEntry.from_dict: a present
timestamp key overrides the construction-time now via fromisoformat
(TypeError on a non-string). -/
def ActivityEntry.from_dict_ts (kvs : List (String × Json)) (t : String)
    (dur cal : Int) (nts : String) (now : String) : Dec ActivityEntry :=
  match pyGet kvs "timestamp" with
  | some (Json.str ts) => Dec.ok (ActivityEntry.init t dur cal nts ts)
  | some _ => Dec.raised (PyError.typeError "fromisoformat argument must be str")
  | none => Dec.ok (ActivityEntry.init t dur cal nts now)

/-- ActivityEntry.from_dict from models.py, at the Json level.  The
constructor performs no validation. -/
def ActivityEntry.from_dict (d : Json) (now : String) : Dec ActivityEntry :=
  match d with
  | Json.obj kvs =>
    match pyGet kvs "activity_type" with
    | some (Json.str t) =>
      match pyGet kvs "duration_minutes" with
      | some (Json.int dur) =>
        match pyGet kvs "calories_burned" with
        | some (Json.int cal) =>
          match pyGet kvs "notes" with
          | some (Json.str nts) => ActivityEntry.from_dict_ts kvs t dur cal nts now
          | none => ActivityEntry.from_dict_ts kvs t dur cal "" now
          | some _ => Dec.outside
        | _ => Dec.outside
      | _ => Dec.outside
    | _ => Dec.outside
  | _ => Dec.raised (PyError.attributeError "object has no attribute get")

/-- The for-loop of UserProfile.from_dict over activity_history. -/
def decodeActivityList (now : String) : List Json → Dec (List ActivityEntry)
  | [] => Dec.ok []
  | j :: rest =>
    match ActivityEntry.from_dict j now with
    | Dec.ok a =>
      match decodeActivityList now rest with
      | Dec.ok acts => Dec.ok (a :: acts)
      | Dec.raised e => Dec.raised e
      | Dec.outside => Dec.outside
    | Dec.raised e => Dec.raised e
    | Dec.outside => Dec.outside

/-- The activity_history-restore step of UserProfile.from_dict: only runs
when the key is present; iterating a non-list raises. -/
def decodeActivities (kvs : List (String × Json)) (now : String) :
    Dec (List ActivityEntry) :=
  match pyGet kvs "activity_history" with
  | none => Dec.ok []
  | some (Json.arr xs) => decodeActivityList now xs
  | some _ => Dec.raised (PyError.typeError "activity_history is not iterable")

/-- UserProfile.from_dict from models.py, at the Json level.  Mirrors the
Python evaluation order: the constructor validates age then role; then
created_at is restored (fromisoformat raises TypeError on a non-string);
then the activity history is decoded entry by entry.  The stats key is
never read. -/
def UserProfile.from_dict (d : Json) (now : String) : Dec UserProfile :=
  match d with
  | Json.obj kvs =>
    match pyGet kvs "age" with
    | some (Json.int n) =>
      if n < 0 ∨ n > 150 then Dec.raised (PyError.valueError ageValidationMsg)
      else
        match pyGet kvs "role" with
        | some (Json.str s) =>
          match UserRole.ofString s with
          | some r =>
            match pyGet kvs "user_id", pyGet kvs "name" with
            | some (Json.str uid), some (Json.str nm) =>
              match pyGet kvs "created_at" with
              | some (Json.str c) =>
                match decodeActivities kvs now with
                | Dec.ok acts =>
                  Dec.ok
                    { user_id := uid, name := nm, age := n, role := r
                      activity_history := acts, created_at := c }
                | Dec.raised e => Dec.raised e
                | Dec.outside => Dec.outside
              | some _ => Dec.raised (PyError.typeError "fromisoformat argument must be str")
              | none =>
                match decodeActivities kvs now with
                | Dec.ok acts =>
                  Dec.ok
                    { user_id := uid, name := nm, age := n, role := r
                      activity_history := acts, created_at := now }
                | Dec.raised e => Dec.raised e
                | Dec.outside => Dec.outside
            | _, _ => Dec.outside
          | none => Dec.raised (PyError.valueError invalidRoleCtorMsg)
        | some _ => Dec.outside
        | none => Dec.outside
    | some (Json.bool _) => Dec.outside
    | _ => Dec.raised (PyError.valueError ageValidationMsg)
  | _ => Dec.raised (PyError.attributeError "object has no attribute get")

/-- The backing file as seen by load_all: missing, present but not
decodable by json.load, or decodable to a Json value. -/
inductive FileData where
  | absent
  | invalidJson
  | json (v : Json)

/-- Outcome of ProfileStorage.load_all: a loaded collection, a caught
error that logs and resets to empty, an uncaught exception escaping the
constructor, or a value outside the typed model (never hit by the
theorems below). -/
inductive LoadOutcome where
  | ok (profiles : List (String × UserProfile))
  | reset (msg : String)
  | crash (e : PyError)
  | outside

/-- The for-loop of load_all over data.items(), in dict iteration order. -/
def loadEntries (now : String) : List (String × Json) → Dec (List (String × UserProfile))
  | [] => Dec.ok []
  | (uid, pd) :: rest =>
    match UserProfile.from_dict pd now with
    | Dec.ok p =>
      match loadEntries now rest with
      | Dec.ok ps => Dec.ok ((uid, p) :: ps)
      | Dec.raised e => Dec.raised e
      | Dec.outside => Dec.outside
    | Dec.raised e => Dec.raised e
    | Dec.outside => Dec.outside

def jsonDecodeErrorMsg : String := "Expecting value"

/-- ProfileStorage.load_all.  Only json.JSONDecodeError and ValueError are
caught (reset to empty with a logged message); any other exception, such
as the AttributeError raised by data.items() when the file holds valid
JSON that is not an object, escapes the constructor. -/
def load_all (fd : FileData) (now : String) : LoadOutcome :=
  match fd with
  | FileData.absent => LoadOutcome.ok []
  | FileData.invalidJson => LoadOutcome.reset jsonDecodeErrorMsg
  | FileData.json v =>
    match v with
    | Json.obj kvs =>
      match loadEntries now kvs with
      | Dec.ok ps => LoadOutcome.ok ps
      | Dec.raised (PyError.valueError m) => LoadOutcome.reset m
      | Dec.raised e => LoadOutcome.crash e
      | Dec.outside => LoadOutcome.outside
    | _ => LoadOutcome.crash (PyError.attributeError "object has no attribute items")

/-- The JSON object written by save_all: user_id keys mapped to the full
per-profile encoding. -/
def encodeAll (ps : List (String × UserProfile)) : Json :=
  Json.obj (ps.map (fun kv => (kv.1, UserProfile.to_dict kv.2)))

/-- State of a ProfileStorage instance: the in-memory profiles dict (an
insertion-ordered association list with unique keys, like a Python dict)
together with the current content of the backing file. -/
structure DurableState where
  profiles : List (String × UserProfile)
  file : FileData

/-- ProfileStorage.save_all: full re-serialize-and-overwrite of the file. -/
def ProfileStorage.save_all (st : DurableState) : DurableState :=
  { st with file := FileData.json (encodeAll st.profiles) }

/-- ProfileStorage.get_profile: self.profiles.get(user_id). -/
def ProfileStorage.get_profile (st : DurableState) (user_id : String) : Option UserProfile :=
  (st.profiles.find? (fun kv => kv.1 == user_id)).map (fun kv => kv.2)

/-- Python dict assignment to an existing key: replaces the value in
place, keeping the key position. -/
def setEntry (ps : List (String × UserProfile)) (user_id : String) (p : UserProfile) :
    List (String × UserProfile) :=
  ps.map (fun kv => if kv.1 = user_id then (user_id, p) else kv)

def duplicateKeyMsg : String := "Profile with user_id already exists"

/-- ProfileStorage.create_profile: raises ValueError on a duplicate key
before anything is mutated; otherwise constructs (propagating validation
errors), inserts at the end, and persists. -/
def ProfileStorage.create_profile (st : DurableState) (user_id name : String)
    (age : Int) (role : String) (now : String) :
    Except PyError (DurableState × UserProfile) :=
  if (ProfileStorage.get_profile st user_id).isSome then
    Except.error (PyError.valueError duplicateKeyMsg)
  else
    match UserProfile.init user_id name age (RoleArg.str role) now with
    | Except.error e => Except.error e
    | Except.ok p =>
      let st1 : DurableState := { st with profiles := st.profiles ++ [(user_id, p)] }
      Except.ok (ProfileStorage.save_all st1, p)

/-- The kwargs of update_profile as an explicit patch record. -/
structure UpdatePatch where
  name : Option String
  age : Option Int
  role : Option RoleArg
deriving DecidableEq, Repr

/-- Outcome of ProfileStorage.update_profile.  Python mutates the stored
profile field by field, so a raise can leave it partially updated: the
raised constructor carries the storage state as it stands at the raise
(the file is never rewritten on that path). -/
inductive UpdateOutcome where
  | notFound
  | raised (e : PyError) (st : DurableState)
  | ok (st : DurableState) (p : UserProfile)

/-- The role step of update_profile, entered with name and age already
applied in st (p2 is the stored profile at that point).  A string role
goes through UserRole(s), whose raw ValueError is not wrapped; a non-string
(enum) role is assigned as given.  Then save_all runs. -/
def ProfileStorage.update_profile_role (st : DurableState) (user_id : String)
    (p2 : UserProfile) (patch : UpdatePatch) : UpdateOutcome :=
  match patch.role with
  | some (RoleArg.str s) =>
    match UserRole.ofString s with
    | some r =>
      let p3 := { p2 with role := r }
      UpdateOutcome.ok
        (ProfileStorage.save_all { st with profiles := setEntry st.profiles user_id p3 }) p3
    | none => UpdateOutcome.raised (PyError.valueError invalidRoleEnumMsg) st
  | some (RoleArg.enum r) =>
    let p3 := { p2 with role := r }
    UpdateOutcome.ok
      (ProfileStorage.save_all { st with profiles := setEntry st.profiles user_id p3 }) p3
  | none => UpdateOutcome.ok (ProfileStorage.save_all st) p2

/-- ProfileStorage.update_profile: None when the user_id is unknown;
otherwise applies name, then validates and applies age, then the role
step.  Each application mutates the stored profile immediately, so a
failed age check leaves an already-supplied name applied. -/
def ProfileStorage.update_profile (st : DurableState) (user_id : String)
    (patch : UpdatePatch) : UpdateOutcome :=
  match ProfileStorage.get_profile st user_id with
  | none => UpdateOutcome.notFound
  | some p =>
    let p1 := match patch.name with
      | some n => { p with name := n }
      | none => p
    let st1 : DurableState := { st with profiles := setEntry st.profiles user_id p1 }
    match patch.age with
    | some a =>
      if a < 0 ∨ a > 150 then
        UpdateOutcome.raised (PyError.valueError ageValidationMsg) st1
      else
        let p2 := { p1 with age := a }
        ProfileStorage.update_profile_role
          { st with profiles := setEntry st.profiles user_id p2 } user_id p2 patch
    | none => ProfileStorage.update_profile_role st1 user_id p1 patch

/-- ProfileStorage.get_all_profiles: list(self.profiles.values()). -/
def ProfileStorage.get_all_profiles (st : DurableState) : List UserProfile :=
  st.profiles.map (fun kv => kv.2)

/-- ProfileStorage.get_profiles_by_role: exact match on role.value. -/
def ProfileStorage.get_profiles_by_role (st : DurableState) (role : String) :
    List UserProfile :=
  (ProfileStorage.get_all_profiles st).filter (fun p => p.role.value == role)

/-- ProfileStorage.add_activity_to_profile: False on an unknown user_id
(no mutation); otherwise appends the activity and persists. -/
def ProfileStorage.add_activity_to_profile (st : DurableState) (user_id activity_type : String)
    (duration_minutes calories_burned : Int) (notes : String) (now : String) :
    Bool × DurableState :=
  match ProfileStorage.get_profile st user_id with
  | none => (false, st)
  | some p =>
    let p2 := (UserProfile.add_activity p activity_type duration_minutes calories_burned notes now).1
    (true, ProfileStorage.save_all { st with profiles := setEntry st.profiles user_id p2 })

/-- Output of ActivitySerializer.serialize (same fields as to_dict, with
the timestamp already in its ISO form). -/
structure ActivityOut where
  activity_type : String
  duration_minutes : Int
  calories_burned : Int
  timestamp : String
  notes : String
deriving DecidableEq, Repr

def ActivitySerializer.serialize (a : ActivityEntry) : ActivityOut :=
  { activity_type := a.activity_type
    duration_minutes := a.duration_minutes
    calories_burned := a.calories_burned
    timestamp := a.timestamp
    notes := a.notes }

def ActivitySerializer.serialize_many (acts : List ActivityEntry) : List ActivityOut :=
  acts.map ActivitySerializer.serialize

/-- The recomputed stats block emitted by UserProfileSerializer.serialize. -/
structure ProfileStats where
  total_activities : Nat
  total_activity_time_minutes : Int
  total_calories_burned : Int
deriving DecidableEq, Repr

/-- Output of UserProfileSerializer.serialize. -/
structure ProfileOut where
  user_id : String
  name : String
  age : Int
  role : String
  created_at : String
  activity_history : List ActivityOut
  stats : ProfileStats
deriving DecidableEq, Repr

def UserProfileSerializer.serialize (p : UserProfile) : ProfileOut :=
  { user_id := p.user_id
    name := p.name
    age := p.age
    role := p.role.value
    created_at := p.created_at
    activity_history := ActivitySerializer.serialize_many p.activity_history
    stats :=
      { total_activities := p.get_total_activities
        total_activity_time_minutes := p.get_total_activity_time
        total_calories_burned := p.get_total_calories_burned } }

/-- One reduced-field row of UserProfileSerializer.serialize_list_view. -/
structure ListItem where
  user_id : String
  name : String
  age : Int
  role : String
  total_activities : Nat
  total_calories_burned : Int
deriving DecidableEq, Repr

def UserProfileSerializer.serialize_list_view (ps : List UserProfile) : List ListItem :=
  ps.map (fun p =>
    { user_id := p.user_id
      name := p.name
      age := p.age
      role := p.role.value
      total_activities := p.get_total_activities
      total_calories_burned := p.get_total_calories_burned })

/-- The stats payload of get_user_statistics. -/
structure UserStats where
  user_id : String
  name : String
  role : String
  total_activities : Nat
  total_activity_time_minutes : Int
  total_calories_burned : Int
  average_calories_per_activity : Int
deriving DecidableEq, Repr

/-- The data slot of an API response; Payload.none models a response with
no data (error responses and the delete success). -/
inductive Payload where
  | profile (p : ProfileOut)
  | listing (xs : List ListItem)
  | stats (s : UserStats)
  | none
deriving DecidableEq, Repr

/-- The uniform response shape built by the APIResponse helpers. -/
structure ApiResponse where
  success : Bool
  message : String
  data : Payload
  status_code : Int
  error_details : Option String
deriving DecidableEq, Repr

/-- APIResponse.success. -/
def apiSuccess (data : Payload) (message : String) (status_code : Int) : ApiResponse :=
  { success := true, message := message, data := data
    status_code := status_code, error_details := Option.none }

/-- APIResponse.error (views.py never passes error_details). -/
def apiError (message : String) (status_code : Int) : ApiResponse :=
  { success := false, message := message, data := Payload.none
    status_code := status_code, error_details := Option.none }

/-- views.create_profile: pre-validates user_id/name/age/role, then calls
storage.create_profile; a ValueError from storage (duplicate key or
constructor validation) surfaces as 400 with its message. -/
def Views.create_profile (st : DurableState) (user_id name : String) (age : Int)
    (role : String) (now : String) : ApiResponse × DurableState :=
  if user_id = "" ∨ name = "" then
    (apiError "user_id and name are required" 400, st)
  else if age < 0 ∨ age > 150 then
    (apiError "age must be a valid integer between 0 and 150" 400, st)
  else if ¬ (role = "student" ∨ role = "gym_teacher") then
    (apiError "role must be student or gym_teacher" 400, st)
  else
    match ProfileStorage.create_profile st user_id name age role now with
    | Except.error (PyError.valueError m) => (apiError m 400, st)
    | Except.error _ => (apiError "Internal server error" 500, st)
    | Except.ok (st2, p) =>
      (apiSuccess (Payload.profile (UserProfileSerializer.serialize p))
        "Profile created successfully" 201, st2)

def profileNotFoundMsg : String := "Profile with user_id not found"

/-- views.update_profile: 404 on an unknown user_id, 400 on a ValueError
from the storage layer (carrying the storage state as mutated up to the
raise), 200 with the serialized updated profile otherwise. -/
def Views.update_profile (st : DurableState) (user_id : String) (patch : UpdatePatch) :
    ApiResponse × DurableState :=
  match ProfileStorage.update_profile st user_id patch with
  | UpdateOutcome.notFound => (apiError profileNotFoundMsg 404, st)
  | UpdateOutcome.raised (PyError.valueError m) st2 => (apiError m 400, st2)
  | UpdateOutcome.raised _ st2 => (apiError "Internal server error" 500, st2)
  | UpdateOutcome.ok st2 p =>
    (apiSuccess (Payload.profile (UserProfileSerializer.serialize p))
      "Profile updated successfully" 200, st2)

def invalidRoleFilterMsg : String := "Invalid role. Must be student or gym_teacher"

/-- views.list_profiles: the role filter is checked with Python truthiness
(if role:), so an empty-string role is treated like no filter at all. -/
def Views.list_profiles (st : DurableState) (role : Option String) : ApiResponse :=
  match role with
  | some r =>
    if r = "" then
      let ps := ProfileStorage.get_all_profiles st
      apiSuccess (Payload.listing (UserProfileSerializer.serialize_list_view ps))
        ("Retrieved " ++ toString ps.length ++ " profile(s)") 200
    else if ¬ (r = "student" ∨ r = "gym_teacher") then
      apiError invalidRoleFilterMsg 400
    else
      let ps := ProfileStorage.get_profiles_by_role st r
      apiSuccess (Payload.listing (UserProfileSerializer.serialize_list_view ps))
        ("Retrieved " ++ toString ps.length ++ " profile(s)") 200
  | Option.none =>
    let ps := ProfileStorage.get_all_profiles st
    apiSuccess (Payload.listing (UserProfileSerializer.serialize_list_view ps))
      ("Retrieved " ++ toString ps.length ++ " profile(s)") 200

/-- views.add_activity: validates activity_type/duration/calories before
reaching storage; 404 on an unknown user_id; otherwise re-reads the
profile and returns it serialized with 201. -/
def Views.add_activity (st : DurableState) (user_id activity_type : String)
    (duration_minutes calories_burned : Int) (notes : String) (now : String) :
    ApiResponse × DurableState :=
  if activity_type = "" then
    (apiError "activity_type is required" 400, st)
  else if duration_minutes ≤ 0 then
    (apiError "duration_minutes must be a positive integer" 400, st)
  else if calories_burned < 0 then
    (apiError "calories_burned must be a non-negative integer" 400, st)
  else
    match ProfileStorage.add_activity_to_profile st user_id activity_type
        duration_minutes calories_burned notes now with
    | (false, _) => (apiError profileNotFoundMsg 404, st)
    | (true, st2) =>
      match ProfileStorage.get_profile st2 user_id with
      | some p =>
        (apiSuccess (Payload.profile (UserProfileSerializer.serialize p))
          "Activity added successfully" 201, st2)
      | Option.none => (apiError "Internal server error" 500, st2)

/-- views.get_user_statistics: 404 on an unknown user_id; otherwise the
derived sums, with the average computed by Python floor division and
guarded to 0 when there are no activities. -/
def Views.get_user_statistics (st : DurableState) (user_id : String) : ApiResponse :=
  match ProfileStorage.get_profile st user_id with
  | Option.none => apiError profileNotFoundMsg 404
  | some p =>
    let ta : Nat := p.get_total_activities
    apiSuccess
      (Payload.stats
        { user_id := user_id
          name := p.name
          role := p.role.value
          total_activities := ta
          total_activity_time_minutes := p.get_total_activity_time
          total_calories_burned := p.get_total_calories_burned
          average_calories_per_activity :=
            if ta > 0 then Int.fdiv p.get_total_calories_burned (ta : Int) else 0 })
      "Statistics retrieved successfully" 200

/-! ## Shared sample data for the concrete witnesses and counterexamples -/

def sampleProfile : UserProfile :=
  { user_id := "u1", name := "Alice", age := 25, role := UserRole.student
    activity_history := [], created_at := "2024-01-01T00:00:00" }

def sampleTeacher : UserProfile :=
  { user_id := "u2", name := "Paul", age := 45, role := UserRole.gym_teacher
    activity_history := [], created_at := "2024-01-02T00:00:00" }

def sampleState : DurableState :=
  { profiles := [("u1", sampleProfile), ("u2", sampleTeacher)], file := FileData.absent }

/-! ## Helper predicates and lemmas -/

/-- Role arguments the constructor accepts: exactly the two recognized
strings, or any already-built enum member. -/
def RoleOkP : RoleArg → Prop
  | RoleArg.str s => s = "student" ∨ s = "gym_teacher"
  | RoleArg.enum _ => True

instance (r : RoleArg) : Decidable (RoleOkP r) :=
  match r with
  | RoleArg.str s => inferInstanceAs (Decidable (s = "student" ∨ s = "gym_teacher"))
  | RoleArg.enum _ => inferInstanceAs (Decidable True)

lemma UserRole.ofString_isSome_iff (s : String) :
    (UserRole.ofString s).isSome = true ↔ (s = "student" ∨ s = "gym_teacher") := by
  unfold UserRole.ofString
  by_cases h1 : s = "student" <;> by_cases h2 : s = "gym_teacher" <;> simp [h1, h2]

lemma UserRole.ofString_value (r : UserRole) : UserRole.ofString r.value = some r := by
  cases r <;> rfl

/-! ## C1 -/

/-- C1: UserProfile construction succeeds exactly when the age is an
integer in the range 0 to 150 and the role is the string student or
gym_teacher or an enum member; on success the new profile carries the
given fields and has zero activities; otherwise construction fails with a
ValueError and no profile value is produced. -/
theorem c1_profile_construction (uid nm : String) (age : Int) (role : RoleArg) (now : String) :
    ((∃ p, UserProfile.init uid nm age role now = Except.ok p) ↔
      (0 ≤ age ∧ age ≤ 150 ∧ RoleOkP role))
    ∧ (∀ p, UserProfile.init uid nm age role now = Except.ok p →
        p.get_total_activities = 0 ∧ p.user_id = uid ∧ p.name = nm ∧
        p.age = age ∧ p.created_at = now)
    ∧ (¬ (0 ≤ age ∧ age ≤ 150 ∧ RoleOkP role) →
        ∃ m, UserProfile.init uid nm age role now = Except.error (PyError.valueError m)) := by
  unfold UserProfile.init
  by_cases hage : age < 0 ∨ age > 150
  · rw [if_pos hage]
    refine ⟨⟨?_, ?_⟩, ?_, ?_⟩
    · rintro ⟨p, hp⟩; exact absurd hp (by simp)
    · rintro ⟨h1, h2, -⟩; omega
    · intro p hp; exact absurd hp (by simp)
    · intro _; exact ⟨_, rfl⟩
  · rw [if_neg hage]
    cases role with
    | str s =>
      dsimp only
      rcases hof : UserRole.ofString s with - | r <;> dsimp only
      · have hs : ¬ (s = "student" ∨ s = "gym_teacher") := by
          rw [← UserRole.ofString_isSome_iff, hof]; simp
        refine ⟨⟨?_, ?_⟩, ?_, ?_⟩
        · rintro ⟨p, hp⟩; exact absurd hp (by simp)
        · rintro ⟨-, -, h3⟩; exact absurd h3 hs
        · intro p hp; exact absurd hp (by simp)
        · intro _; exact ⟨_, rfl⟩
      · have hs : s = "student" ∨ s = "gym_teacher" := by
          rw [← UserRole.ofString_isSome_iff, hof]; rfl
        refine ⟨⟨?_, ?_⟩, ?_, ?_⟩
        · intro _; exact ⟨by omega, by omega, hs⟩
        · intro _; exact ⟨_, rfl⟩
        · intro p hp
          rw [Except.ok.injEq] at hp
          subst hp
          exact ⟨rfl, rfl, rfl, rfl, rfl⟩
        · intro h; exact absurd ⟨by omega, by omega, hs⟩ h
    | enum r =>
      dsimp only
      refine ⟨⟨?_, ?_⟩, ?_, ?_⟩
      · intro _; exact ⟨by omega, by omega, trivial⟩
      · intro _; exact ⟨_, rfl⟩
      · intro p hp
        rw [Except.ok.injEq] at hp
        subst hp
        exact ⟨rfl, rfl, rfl, rfl, rfl⟩
      · intro h; exact absurd ⟨by omega, by omega, trivial⟩ h

/-- Witness for C1 at a concrete valid input. -/
theorem c1_witness :
    (0 ≤ (25 : Int) ∧ (25 : Int) ≤ 150 ∧ RoleOkP (RoleArg.str "student"))
    ∧ ∃ p, UserProfile.init "u9" "Alice" 25 (RoleArg.str "student") "t0" = Except.ok p
        ∧ p.get_total_activities = 0 := by
  refine ⟨by decide, ?_⟩
  obtain ⟨p, hp⟩ :=
    (c1_profile_construction "u9" "Alice" 25 (RoleArg.str "student") "t0").1.mpr (by decide)
  exact ⟨p, hp,
    ((c1_profile_construction "u9" "Alice" 25 (RoleArg.str "student") "t0").2.1 p hp).1⟩

/-! ## C3: encode/decode round trip -/

lemma pyGet_cons (k : String) (v : Json) (rest : List (String × Json)) (key : String) :
    pyGet ((k, v) :: rest) key = if k = key then some v else pyGet rest key := by
  by_cases h : k = key
  · simp [pyGet, List.find?, beq_iff_eq, h]
  · have hb : (k == key) = false := beq_eq_false_iff_ne.mpr h
    simp [pyGet, List.find?, hb, h]

lemma activityEntry_roundtrip (a : ActivityEntry) (now : String) :
    ActivityEntry.from_dict a.to_dict now = Dec.ok a := rfl

lemma decodeActivityList_map (now : String) (acts : List ActivityEntry) :
    decodeActivityList now (acts.map ActivityEntry.to_dict) = Dec.ok acts := by
  induction acts with
  | nil => rfl
  | cons a rest ih =>
    simp [decodeActivityList, activityEntry_roundtrip, ih]

lemma userProfile_roundtrip_withStats (p : UserProfile) (j : Json) (now : String)
    (h0 : 0 ≤ p.age) (h1 : p.age ≤ 150) :
    UserProfile.from_dict (p.to_dict_withStats j) now = Dec.ok p := by
  have hcond : ¬ (p.age < 0 ∨ p.age > 150) := by omega
  simp [UserProfile.from_dict, UserProfile.to_dict_withStats, pyGet_cons, hcond,
    UserRole.ofString_value, decodeActivities, decodeActivityList_map]

lemma userProfile_roundtrip (p : UserProfile) (now : String)
    (h0 : 0 ≤ p.age) (h1 : p.age ≤ 150) :
    UserProfile.from_dict p.to_dict now = Dec.ok p :=
  userProfile_roundtrip_withStats p p.statsJson now h0 h1

/-- C3: for every valid profile, decoding its dictionary encoding
reproduces the profile exactly, whatever the decode-time clock reads:
same user_id, name, age, role, created_at, and the same activity list
entry by entry, timestamps included. -/
theorem c3_roundtrip (p : UserProfile) (now : String) (h0 : 0 ≤ p.age) (h1 : p.age ≤ 150) :
    UserProfile.from_dict p.to_dict now = Dec.ok p :=
  userProfile_roundtrip p now h0 h1

def roundtripProfile : UserProfile :=
  { user_id := "u3", name := "Cara", age := 33, role := UserRole.gym_teacher
    activity_history :=
      [ ActivityEntry.init "running" 30 300 "park" "2024-02-01T10:00:00"
      , ActivityEntry.init "swimming" 45 350 "" "2024-02-02T11:00:00" ]
    created_at := "2024-01-15T09:00:00" }

/-- Witness for C3 on a two-activity profile, decoded at a different
clock reading than it was encoded at. -/
theorem c3_witness :
    UserProfile.from_dict roundtripProfile.to_dict "2030-01-01T00:00:00" =
      Dec.ok roundtripProfile :=
  c3_roundtrip roundtripProfile "2030-01-01T00:00:00" (by decide) (by decide)

/-! ## C4: save_all / load_all durability round trip -/

lemma loadEntries_encodeAll (now : String) (ps : List (String × UserProfile))
    (h : ∀ kv ∈ ps, 0 ≤ kv.2.age ∧ kv.2.age ≤ 150) :
    loadEntries now (ps.map (fun kv => (kv.1, UserProfile.to_dict kv.2))) = Dec.ok ps := by
  induction ps with
  | nil => rfl
  | cons kv rest ih =>
    obtain ⟨uid, p⟩ := kv
    obtain ⟨h1, h2⟩ := h (uid, p) (List.mem_cons_self _ _)
    have hrec := ih (fun x hx => h x (List.mem_cons_of_mem _ hx))
    simp [loadEntries, userProfile_roundtrip p now h1 h2, hrec]

/-- C4: saving the whole collection and rebuilding a storage instance
from the same backing file reloads an equal collection (same keys, same
profiles, same activity histories, in order); moreover the persisted
stats record is never read back: decoding is unchanged under an arbitrary
replacement of the stats slot. -/
theorem c4_durability (st : DurableState) (now : String)
    (h : ∀ kv ∈ st.profiles, 0 ≤ kv.2.age ∧ kv.2.age ≤ 150) :
    load_all (ProfileStorage.save_all st).file now = LoadOutcome.ok st.profiles
    ∧ ∀ (p : UserProfile) (j1 j2 : Json) (n2 : String), 0 ≤ p.age → p.age ≤ 150 →
        UserProfile.from_dict (p.to_dict_withStats j1) n2 =
          UserProfile.from_dict (p.to_dict_withStats j2) n2 := by
  constructor
  · simp [ProfileStorage.save_all, load_all, encodeAll, loadEntries_encodeAll now st.profiles h]
  · intro p j1 j2 n2 hb0 hb1
    rw [userProfile_roundtrip_withStats p j1 n2 hb0 hb1,
      userProfile_roundtrip_withStats p j2 n2 hb0 hb1]

/-- Witness for C4: the two-profile sample state survives a save and
reload, and its decoding ignores a corrupted stats slot. -/
theorem c4_witness :
    load_all (ProfileStorage.save_all sampleState).file "t9" =
      LoadOutcome.ok sampleState.profiles
    ∧ UserProfile.from_dict (sampleProfile.to_dict_withStats Json.null) "t9" =
        UserProfile.from_dict (sampleProfile.to_dict_withStats (Json.int 777)) "t9" := by
  have h := c4_durability sampleState "t9" (by decide)
  exact ⟨h.1, h.2 sampleProfile Json.null (Json.int 777) "t9" (by decide) (by decide)⟩

/-! ## C2: duplicate-key rejection on create -/

/-- C2: whenever a user_id is already present, the storage-layer create
fails with the duplicate-key ValueError, no matter what the remaining
arguments are; and when the call reaches the operation layer with inputs
that pass its pre-validation, the failure surfaces as a 400 with the
duplicate message and the state, including the stored profile under that
user_id, is returned unchanged. -/
theorem c2_create_duplicate (st : DurableState) (uid nm : String) (age : Int)
    (role : String) (now : String) (q : UserProfile)
    (hq : ProfileStorage.get_profile st uid = some q) :
    ProfileStorage.create_profile st uid nm age role now =
      Except.error (PyError.valueError duplicateKeyMsg)
    ∧ (uid ≠ "" → nm ≠ "" → 0 ≤ age → age ≤ 150 →
        (role = "student" ∨ role = "gym_teacher") →
        Views.create_profile st uid nm age role now = (apiError duplicateKeyMsg 400, st)) := by
  have hcreate : ProfileStorage.create_profile st uid nm age role now =
      Except.error (PyError.valueError duplicateKeyMsg) := by
    simp [ProfileStorage.create_profile, hq]
  refine ⟨hcreate, ?_⟩
  intro h1 h2 h3 h4 h5
  have hage : ¬ (age < 0 ∨ age > 150) := by omega
  rcases h5 with h5 | h5 <;> subst h5 <;>
    simp [Views.create_profile, h1, h2, hage, hcreate]

/-- Witness for C2: creating u1 again over the sample state fails with
the duplicate error at both layers and leaves the state untouched. -/
theorem c2_witness :
    ProfileStorage.create_profile sampleState "u1" "Bob" 30 "student" "t1" =
      Except.error (PyError.valueError duplicateKeyMsg)
    ∧ Views.create_profile sampleState "u1" "Bob" 30 "student" "t1" =
        (apiError duplicateKeyMsg 400, sampleState) := by
  have h := c2_create_duplicate sampleState "u1" "Bob" 30 "student" "t1" sampleProfile rfl
  exact ⟨h.1, h.2 (by decide) (by decide) (by decide) (by decide) (Or.inl rfl)⟩

/-! ## C5: user statistics -/

/-- C5 (amended): for every stored profile the statistics response
reports the sum of durations, the sum of calories, and an average that is
the Python floor division of total calories by the activity count, 0 when
there are no activities; floor division agrees with integer-truncating
division whenever the calorie total is non-negative. -/
theorem c5_statistics (st : DurableState) (uid : String) (p : UserProfile)
    (h : ProfileStorage.get_profile st uid = some p) :
    ∃ s, Views.get_user_statistics st uid =
        apiSuccess (Payload.stats s) "Statistics retrieved successfully" 200
      ∧ s.total_activities = p.activity_history.length
      ∧ s.total_activity_time_minutes = (p.activity_history.map ActivityEntry.duration_minutes).sum
      ∧ s.total_calories_burned = (p.activity_history.map ActivityEntry.calories_burned).sum
      ∧ (p.activity_history.length = 0 → s.average_calories_per_activity = 0)
      ∧ (0 < p.activity_history.length →
          s.average_calories_per_activity =
            Int.fdiv s.total_calories_burned (p.activity_history.length : Int))
      ∧ (0 < p.activity_history.length → 0 ≤ s.total_calories_burned →
          s.average_calories_per_activity =
            Int.tdiv s.total_calories_burned (p.activity_history.length : Int)) := by
  simp only [Views.get_user_statistics, h]
  refine ⟨_, rfl, rfl, rfl, rfl, ?_, ?_, ?_⟩
  · intro hz
    simp [UserProfile.get_total_activities, hz]
  · intro hpos
    simp [UserProfile.get_total_activities, hpos]
  · intro hpos hnn
    simp only [UserProfile.get_total_activities] at hpos ⊢
    rw [if_pos hpos]
    have hb : (0 : Int) ≤ (p.activity_history.length : Int) := by exact_mod_cast Nat.zero_le _
    simp only [UserProfile.get_total_calories_burned] at hnn ⊢
    rw [Int.fdiv_eq_ediv _ hb, Int.tdiv_eq_ediv hnn hb]

/-- The sample teacher after logging activities of 30 and 45 minutes with
300 and 350 calories through the entity-layer append. -/
def statsProfile : UserProfile :=
  ((sampleTeacher.add_activity "running" 30 300 "" "t1").1.add_activity
    "strength_training" 45 350 "" "t2").1

def statsState : DurableState :=
  { profiles := [("u2", statsProfile)], file := FileData.absent }

/-- Witness for C5: durations 30 and 45 with calories 300 and 350 give
totals 75 and 650 and average 325. -/
theorem c5_witness :
    ∃ s, Views.get_user_statistics statsState "u2" =
        apiSuccess (Payload.stats s) "Statistics retrieved successfully" 200
      ∧ s.total_activity_time_minutes = 75
      ∧ s.total_calories_burned = 650
      ∧ s.average_calories_per_activity = 325 := by
  obtain ⟨s, h1, h2, h3, h4, h5, h6, h7⟩ := c5_statistics statsState "u2" statsProfile rfl
  refine ⟨s, h1, by rw [h3]; rfl, by rw [h4]; rfl, ?_⟩
  rw [h6 (by decide), h4]
  rfl

/-- A profile whose activities were appended by the entity layer with a
negative calorie value, which the entity layer accepts as given; its
calorie total is -1 over 2 activities. -/
def negCalProfile : UserProfile :=
  ((sampleProfile.add_activity "running" 10 (-1) "" "t1").1.add_activity
    "walking" 10 0 "" "t2").1

def negCalState : DurableState :=
  { profiles := [("u1", negCalProfile)], file := FileData.absent }

/-- Counterexample for C5 as stated: with a calorie total of -1 over 2
activities, the code returns Python floor division -1, while the
integer-truncating division of -1 by 2 is 0. -/
theorem c5_counterexample :
    Views.get_user_statistics negCalState "u1" =
      apiSuccess
        (Payload.stats
          { user_id := "u1", name := "Alice", role := "student"
            total_activities := 2, total_activity_time_minutes := 20
            total_calories_burned := -1, average_calories_per_activity := -1 })
        "Statistics retrieved successfully" 200
    ∧ ((-1 : Int) ≠ Int.tdiv (-1) 2) :=
  ⟨rfl, by decide⟩

/-! ## C6 and C10: subset update -/

lemma setEntry_cons (kv : String × UserProfile) (rest : List (String × UserProfile))
    (uid : String) (p : UserProfile) :
    setEntry (kv :: rest) uid p =
      (if kv.1 = uid then (uid, p) else kv) :: setEntry rest uid p := rfl

lemma find?_setEntry_self (ps : List (String × UserProfile)) (uid : String) (p : UserProfile)
    (h : (ps.find? (fun kv => kv.1 == uid)).isSome = true) :
    (setEntry ps uid p).find? (fun kv => kv.1 == uid) = some (uid, p) := by
  induction ps with
  | nil => simp [List.find?] at h
  | cons kv rest ih =>
    rw [setEntry_cons]
    by_cases hk : kv.1 = uid
    · rw [if_pos hk]
      simp [List.find?_cons]
    · rw [if_neg hk]
      have hb : (kv.1 == uid) = false := beq_eq_false_iff_ne.mpr hk
      simp only [List.find?_cons, hb] at h ⊢
      exact ih h

lemma find?_setEntry_ne (ps : List (String × UserProfile)) (uid : String) (p : UserProfile)
    (v : String) (h : v ≠ uid) :
    (setEntry ps uid p).find? (fun kv => kv.1 == v) = ps.find? (fun kv => kv.1 == v) := by
  induction ps with
  | nil => rfl
  | cons kv rest ih =>
    rw [setEntry_cons]
    by_cases hk : kv.1 = uid
    · have hv : (uid == v) = false := beq_eq_false_iff_ne.mpr (fun hh => h hh.symm)
      have hkv : (kv.1 == v) = false := by rw [hk]; exact hv
      rw [if_pos hk]
      simp only [List.find?_cons, hv, hkv]
      exact ih
    · rw [if_neg hk]
      rcases hkv : (kv.1 == v) with - | -
      · simp only [List.find?_cons, hkv]
        exact ih
      · simp only [List.find?_cons, hkv]

lemma setEntry_setEntry (ps : List (String × UserProfile)) (uid : String)
    (a b : UserProfile) :
    setEntry (setEntry ps uid a) uid b = setEntry ps uid b := by
  induction ps with
  | nil => rfl
  | cons kv rest ih =>
    by_cases hk : kv.1 = uid
    · rw [setEntry_cons, if_pos hk, setEntry_cons, if_pos rfl, setEntry_cons, if_pos hk, ih]
    · rw [setEntry_cons, if_neg hk, setEntry_cons, if_neg hk, setEntry_cons, if_neg hk, ih]

/-- The role that a successful update leaves on the profile. -/
def patchRoleApplied (p : UserProfile) (patch : UpdatePatch) : UserRole :=
  match patch.role with
  | some (RoleArg.str s) => (UserRole.ofString s).getD p.role
  | some (RoleArg.enum r) => r
  | none => p.role

/-- The profile produced by a successful update: supplied fields applied,
everything else untouched. -/
def appliedPatch (p : UserProfile) (patch : UpdatePatch) : UserProfile :=
  { p with
    name := patch.name.getD p.name
    age := patch.age.getD p.age
    role := patchRoleApplied p patch }

lemma update_profile_ok (st : DurableState) (uid : String) (patch : UpdatePatch)
    (p : UserProfile) (hp : ProfileStorage.get_profile st uid = some p)
    (hage : ∀ a ∈ patch.age, 0 ≤ a ∧ a ≤ 150)
    (hrole : ∀ r ∈ patch.role, RoleOkP r) :
    ProfileStorage.update_profile st uid patch =
      UpdateOutcome.ok
        (ProfileStorage.save_all
          { st with profiles := setEntry st.profiles uid (appliedPatch p patch) })
        (appliedPatch p patch) := by
  obtain ⟨pn, pa, pr⟩ := patch
  rcases pa with - | a
  · rcases pr with - | r
    · rcases pn with - | n <;>
        simp [ProfileStorage.update_profile, hp, ProfileStorage.update_profile_role,
          appliedPatch, patchRoleApplied]
    · rcases r with s | r
      · obtain hs := hrole (RoleArg.str s) rfl
        rcases hs with hs | hs <;> subst hs <;> rcases pn with - | n <;>
          simp [ProfileStorage.update_profile, hp, ProfileStorage.update_profile_role,
            appliedPatch, patchRoleApplied, UserRole.ofString, setEntry_setEntry]
      · rcases pn with - | n <;>
          simp [ProfileStorage.update_profile, hp, ProfileStorage.update_profile_role,
            appliedPatch, patchRoleApplied, setEntry_setEntry]
  · obtain ⟨ha0, ha1⟩ := hage a rfl
    have hcond : ¬ (a < 0 ∨ a > 150) := by omega
    rcases pr with - | r
    · rcases pn with - | n <;>
        simp [ProfileStorage.update_profile, hp, hcond, ProfileStorage.update_profile_role,
          appliedPatch, patchRoleApplied]
    · rcases r with s | r
      · obtain hs := hrole (RoleArg.str s) rfl
        rcases hs with hs | hs <;> subst hs <;> rcases pn with - | n <;>
          simp [ProfileStorage.update_profile, hp, hcond, ProfileStorage.update_profile_role,
            appliedPatch, patchRoleApplied, UserRole.ofString, setEntry_setEntry]
      · rcases pn with - | n <;>
          simp [ProfileStorage.update_profile, hp, hcond, ProfileStorage.update_profile_role,
            appliedPatch, patchRoleApplied, setEntry_setEntry]

/-- C6: updating an unknown user_id is a pure 404 no-op; otherwise a valid
update applies exactly the supplied subset of name, age and role, leaves
user_id, created_at, the activity history and every other profile
untouched, persists the collection, and returns the updated profile with
200; a supplied age or role failing the construction-time validation
surfaces as 400. -/
theorem c6_update_profile (st : DurableState) (uid : String) (patch : UpdatePatch) :
    (ProfileStorage.get_profile st uid = Option.none →
      ProfileStorage.update_profile st uid patch = UpdateOutcome.notFound
      ∧ Views.update_profile st uid patch = (apiError profileNotFoundMsg 404, st))
    ∧ (∀ p, ProfileStorage.get_profile st uid = some p →
        (∀ a ∈ patch.age, 0 ≤ a ∧ a ≤ 150) →
        (∀ r ∈ patch.role, RoleOkP r) →
        ∃ st2,
          ProfileStorage.update_profile st uid patch =
            UpdateOutcome.ok st2 (appliedPatch p patch)
          ∧ Views.update_profile st uid patch =
              (apiSuccess (Payload.profile (UserProfileSerializer.serialize (appliedPatch p patch)))
                "Profile updated successfully" 200, st2)
          ∧ (appliedPatch p patch).name = patch.name.getD p.name
          ∧ (appliedPatch p patch).age = patch.age.getD p.age
          ∧ (appliedPatch p patch).role = patchRoleApplied p patch
          ∧ (appliedPatch p patch).user_id = p.user_id
          ∧ (appliedPatch p patch).created_at = p.created_at
          ∧ (appliedPatch p patch).activity_history = p.activity_history
          ∧ ProfileStorage.get_profile st2 uid = some (appliedPatch p patch)
          ∧ (∀ v, v ≠ uid → ProfileStorage.get_profile st2 v = ProfileStorage.get_profile st v)
          ∧ st2.file = FileData.json (encodeAll st2.profiles))
    ∧ (∀ p a, ProfileStorage.get_profile st uid = some p → patch.age = some a →
        (a < 0 ∨ a > 150) → (Views.update_profile st uid patch).1.status_code = 400)
    ∧ (∀ p s, ProfileStorage.get_profile st uid = some p →
        patch.role = some (RoleArg.str s) → ¬ (s = "student" ∨ s = "gym_teacher") →
        (∀ a ∈ patch.age, 0 ≤ a ∧ a ≤ 150) →
        (Views.update_profile st uid patch).1.status_code = 400) := by
  refine ⟨?_, ?_, ?_, ?_⟩
  · intro h
    constructor
    · simp [ProfileStorage.update_profile, h]
    · simp [Views.update_profile, ProfileStorage.update_profile, h]
  · intro p hp hage hrole
    have hok := update_profile_ok st uid patch p hp hage hrole
    refine ⟨_, hok, ?_, rfl, rfl, rfl, rfl, rfl, rfl, ?_, ?_, rfl⟩
    · simp [Views.update_profile, hok]
    · have hs : (st.profiles.find? (fun kv => kv.1 == uid)).isSome = true := by
        simp only [ProfileStorage.get_profile] at hp
        rcases hfind : st.profiles.find? (fun kv => kv.1 == uid) with - | kv
        · rw [hfind] at hp; exact absurd hp (by simp)
        · rw [hfind]; rfl
      simp [ProfileStorage.get_profile, ProfileStorage.save_all,
        find?_setEntry_self st.profiles uid _ hs]
    · intro v hv
      simp [ProfileStorage.get_profile, ProfileStorage.save_all,
        find?_setEntry_ne st.profiles uid _ v hv]
  · intro p a hp hpa hbad
    obtain ⟨pn, pa', pr⟩ := patch
    simp only [UpdatePatch.age] at hpa
    subst hpa
    rcases pn with - | n <;>
      simp [Views.update_profile, ProfileStorage.update_profile, hp, hbad, apiError]
  · intro p s hp hpr hbadrole hage
    have hof : UserRole.ofString s = Option.none := by
      rcases hofs : UserRole.ofString s with - | r
      · rfl
      · exact absurd ((UserRole.ofString_isSome_iff s).mp (by rw [hofs]; rfl)) hbadrole
    obtain ⟨pn, pa, pr⟩ := patch
    simp only [UpdatePatch.role] at hpr
    subst hpr
    rcases pa with - | a
    · rcases pn with - | n <;>
        simp [Views.update_profile, ProfileStorage.update_profile,
          ProfileStorage.update_profile_role, hp, hof, apiError]
    · obtain ⟨ha0, ha1⟩ := hage a rfl
      have hcond : ¬ (a < 0 ∨ a > 150) := by omega
      rcases pn with - | n <;>
        simp [Views.update_profile, ProfileStorage.update_profile,
          ProfileStorage.update_profile_role, hp, hof, hcond, apiError]

/-- Witness for C6: a full valid patch applied to u1 of the sample state. -/
theorem c6_witness :
    ∃ st2,
      ProfileStorage.update_profile sampleState "u1"
          ⟨some "Carol", some 30, some (RoleArg.str "gym_teacher")⟩ =
        UpdateOutcome.ok st2
          (appliedPatch sampleProfile ⟨some "Carol", some 30, some (RoleArg.str "gym_teacher")⟩)
      ∧ ProfileStorage.get_profile st2 "u1" =
          some (appliedPatch sampleProfile ⟨some "Carol", some 30, some (RoleArg.str "gym_teacher")⟩)
      ∧ ProfileStorage.get_profile st2 "u2" = ProfileStorage.get_profile sampleState "u2" := by
  obtain ⟨st2, h1, -, -, -, -, -, -, -, h9, h10, -⟩ :=
    (c6_update_profile sampleState "u1"
      ⟨some "Carol", some 30, some (RoleArg.str "gym_teacher")⟩).2.1 sampleProfile rfl
      (by intro a ha; cases ha; exact ⟨by decide, by decide⟩)
      (by intro r hr; cases hr; exact Or.inr rfl)
  exact ⟨st2, h1, h9, h10 "u2" (by decide)⟩

/-! ## C10: failed update is not atomic -/

/-- The stored profile at the moment the age check raises: only a
supplied name has been applied. -/
def appliedBeforeAge (p : UserProfile) (patch : UpdatePatch) : UserProfile :=
  { p with name := patch.name.getD p.name }

/-- The stored profile at the moment the role step raises: a supplied
name and a supplied (valid) age have both been applied. -/
def appliedBeforeRole (p : UserProfile) (patch : UpdatePatch) : UserProfile :=
  { p with name := patch.name.getD p.name, age := patch.age.getD p.age }

/-- C10 (amended): for every patch, when update validation fails with a
400 the fields applied before the failing check remain applied to the
stored in-memory profile: a supplied name stays applied when the age
check fails (whatever role was supplied alongside), and a supplied name
and a supplied valid age both stay applied when the role step fails; in
every raising run the backing file is left unrewritten. -/
theorem c10_update_partial_on_error (st : DurableState) (uid : String) (p : UserProfile)
    (patch : UpdatePatch) (hp : ProfileStorage.get_profile st uid = some p) :
    (∀ a, patch.age = some a → (a < 0 ∨ a > 150) →
        ProfileStorage.update_profile st uid patch =
          UpdateOutcome.raised (PyError.valueError ageValidationMsg)
            { st with profiles := setEntry st.profiles uid (appliedBeforeAge p patch) }
        ∧ ProfileStorage.get_profile
            { st with profiles := setEntry st.profiles uid (appliedBeforeAge p patch) } uid =
            some (appliedBeforeAge p patch)
        ∧ Views.update_profile st uid patch =
            (apiError ageValidationMsg 400,
              { st with profiles := setEntry st.profiles uid (appliedBeforeAge p patch) }))
    ∧ (∀ s, patch.role = some (RoleArg.str s) → UserRole.ofString s = Option.none →
        (∀ a ∈ patch.age, 0 ≤ a ∧ a ≤ 150) →
        ProfileStorage.update_profile st uid patch =
          UpdateOutcome.raised (PyError.valueError invalidRoleEnumMsg)
            { st with profiles := setEntry st.profiles uid (appliedBeforeRole p patch) }
        ∧ ProfileStorage.get_profile
            { st with profiles := setEntry st.profiles uid (appliedBeforeRole p patch) } uid =
            some (appliedBeforeRole p patch)
        ∧ Views.update_profile st uid patch =
            (apiError invalidRoleEnumMsg 400,
              { st with profiles := setEntry st.profiles uid (appliedBeforeRole p patch) }))
    ∧ (∀ e st2, ProfileStorage.update_profile st uid patch = UpdateOutcome.raised e st2 →
        st2.file = st.file) := by
  have hs : (st.profiles.find? (fun kv => kv.1 == uid)).isSome = true := by
    simp only [ProfileStorage.get_profile] at hp
    rcases hfind : st.profiles.find? (fun kv => kv.1 == uid) with - | kv
    · rw [hfind] at hp; exact absurd hp (by simp)
    · rw [hfind]; rfl
  obtain ⟨pn, pa, pr⟩ := patch
  refine ⟨?_, ?_, ?_⟩
  · intro a hpa hbad
    simp only [UpdatePatch.age] at hpa
    subst hpa
    have hupd : ProfileStorage.update_profile st uid ⟨pn, some a, pr⟩ =
        UpdateOutcome.raised (PyError.valueError ageValidationMsg)
          { st with profiles :=
              setEntry st.profiles uid (appliedBeforeAge p ⟨pn, some a, pr⟩) } := by
      rcases pn with - | n <;> simp [ProfileStorage.update_profile, hp, hbad, appliedBeforeAge]
    refine ⟨hupd, ?_, ?_⟩
    · simp [ProfileStorage.get_profile, find?_setEntry_self st.profiles uid _ hs]
    · simp [Views.update_profile, hupd]
  · intro s hpr hof hage
    simp only [UpdatePatch.role] at hpr
    subst hpr
    have hupd : ProfileStorage.update_profile st uid ⟨pn, pa, some (RoleArg.str s)⟩ =
        UpdateOutcome.raised (PyError.valueError invalidRoleEnumMsg)
          { st with profiles :=
              setEntry st.profiles uid (appliedBeforeRole p ⟨pn, pa, some (RoleArg.str s)⟩) } := by
      rcases pa with - | a
      · rcases pn with - | n <;>
          simp [ProfileStorage.update_profile, ProfileStorage.update_profile_role, hp, hof,
            appliedBeforeRole]
      · obtain ⟨ha0, ha1⟩ := hage a rfl
        have hcond : ¬ (a < 0 ∨ a > 150) := by omega
        rcases pn with - | n <;>
          simp [ProfileStorage.update_profile, ProfileStorage.update_profile_role, hp, hof,
            hcond, appliedBeforeRole]
    refine ⟨hupd, ?_, ?_⟩
    · simp [ProfileStorage.get_profile, find?_setEntry_self st.profiles uid _ hs]
    · simp [Views.update_profile, hupd]
  · intro e st2 h
    rcases pa with - | a
    · rcases pr with - | r
      · simp [ProfileStorage.update_profile, ProfileStorage.update_profile_role, hp] at h
      · rcases r with s | r
        · rcases hofs : UserRole.ofString s with - | r2
          · simp [ProfileStorage.update_profile, ProfileStorage.update_profile_role,
              hp, hofs] at h
            obtain ⟨-, h2⟩ := h
            subst h2
            rfl
          · simp [ProfileStorage.update_profile, ProfileStorage.update_profile_role,
              hp, hofs] at h
        · simp [ProfileStorage.update_profile, ProfileStorage.update_profile_role, hp] at h
    · by_cases hbad : a < 0 ∨ a > 150
      · simp [ProfileStorage.update_profile, hp, hbad] at h
        obtain ⟨-, h2⟩ := h
        subst h2
        rfl
      · rcases pr with - | r
        · simp [ProfileStorage.update_profile, ProfileStorage.update_profile_role,
            hp, hbad] at h
        · rcases r with s | r
          · rcases hofs : UserRole.ofString s with - | r2
            · simp [ProfileStorage.update_profile, ProfileStorage.update_profile_role,
                hp, hbad, hofs] at h
              obtain ⟨-, h2⟩ := h
              subst h2
              rfl
            · simp [ProfileStorage.update_profile, ProfileStorage.update_profile_role,
                hp, hbad, hofs] at h
          · simp [ProfileStorage.update_profile, ProfileStorage.update_profile_role,
              hp, hbad] at h

/-- Witness for C10 (amended): a three-field patch on the sample state
whose role string is unrecognized leaves the supplied name and age
applied; a two-field patch with an invalid age leaves the supplied name
applied; neither failed run rewrites the backing file. -/
theorem c10_witness :
    ProfileStorage.update_profile sampleState "u1"
        ⟨some "Eve", some 40, some (RoleArg.str "coach")⟩ =
      UpdateOutcome.raised (PyError.valueError invalidRoleEnumMsg)
        { sampleState with
            profiles := setEntry sampleState.profiles "u1"
              { sampleProfile with name := "Eve", age := 40 } }
    ∧ ProfileStorage.get_profile
        { sampleState with
            profiles := setEntry sampleState.profiles "u1"
              { sampleProfile with name := "Eve", age := 40 } } "u1" =
        some { sampleProfile with name := "Eve", age := 40 }
    ∧ ProfileStorage.update_profile sampleState "u1" ⟨some "Dora", some 151, Option.none⟩ =
        UpdateOutcome.raised (PyError.valueError ageValidationMsg)
          { sampleState with
              profiles := setEntry sampleState.profiles "u1"
                { sampleProfile with name := "Dora" } }
    ∧ (∀ e st2,
        ProfileStorage.update_profile sampleState "u1"
            ⟨some "Eve", some 40, some (RoleArg.str "coach")⟩ =
          UpdateOutcome.raised e st2 → st2.file = sampleState.file) := by
  have hrole := (c10_update_partial_on_error sampleState "u1" sampleProfile
    ⟨some "Eve", some 40, some (RoleArg.str "coach")⟩ rfl).2.1 "coach" rfl rfl
    (by intro a ha; cases ha; exact ⟨by decide, by decide⟩)
  have hage := (c10_update_partial_on_error sampleState "u1" sampleProfile
    ⟨some "Dora", some 151, Option.none⟩ rfl).1 151 rfl (Or.inr (by decide))
  exact ⟨hrole.1, hrole.2.1, hage.1,
    (c10_update_partial_on_error sampleState "u1" sampleProfile
      ⟨some "Eve", some 40, some (RoleArg.str "coach")⟩ rfl).2.2⟩

/-- Counterexample for C10 as stated: updating u1 with name Bob and the
invalid age 200 returns 400, yet the stored profile now carries the name
Bob, not its original name Alice. -/
theorem c10_counterexample :
    (Views.update_profile sampleState "u1" ⟨some "Bob", some 200, Option.none⟩).1.status_code = 400
    ∧ ProfileStorage.get_profile
        (Views.update_profile sampleState "u1" ⟨some "Bob", some 200, Option.none⟩).2 "u1" =
        some { sampleProfile with name := "Bob" }
    ∧ sampleProfile.name = "Alice" :=
  ⟨rfl, rfl, rfl⟩

/-! ## C7: add_activity validation and success path -/

/-- C7: add_activity returns 400 (without touching storage) when the
activity type is empty, the duration is not positive, or the calories are
negative; 404 when the inputs are valid but the user_id is unknown; and
otherwise appends exactly one entry with the given fields, persists, and
returns 201 with the full updated profile whose stats block is recomputed
from the extended history. -/
theorem c7_add_activity (st : DurableState) (uid ty : String) (dur cal : Int)
    (notes now : String) :
    (ty = "" → Views.add_activity st uid ty dur cal notes now =
        (apiError "activity_type is required" 400, st))
    ∧ (ty ≠ "" → dur ≤ 0 → Views.add_activity st uid ty dur cal notes now =
        (apiError "duration_minutes must be a positive integer" 400, st))
    ∧ (ty ≠ "" → 0 < dur → cal < 0 → Views.add_activity st uid ty dur cal notes now =
        (apiError "calories_burned must be a non-negative integer" 400, st))
    ∧ (ty ≠ "" → 0 < dur → 0 ≤ cal → ProfileStorage.get_profile st uid = Option.none →
        Views.add_activity st uid ty dur cal notes now = (apiError profileNotFoundMsg 404, st))
    ∧ (∀ p, ty ≠ "" → 0 < dur → 0 ≤ cal → ProfileStorage.get_profile st uid = some p →
        Views.add_activity st uid ty dur cal notes now =
          (apiSuccess
            (Payload.profile (UserProfileSerializer.serialize
              { p with activity_history :=
                  p.activity_history ++ [ActivityEntry.init ty dur cal notes now] }))
            "Activity added successfully" 201,
           ProfileStorage.save_all
             { st with
                 profiles :=
                   setEntry st.profiles uid
                     { p with
                         activity_history :=
                           p.activity_history ++
                             [ActivityEntry.init ty dur cal notes now] } })
        ∧ (UserProfileSerializer.serialize
            { p with activity_history :=
                p.activity_history ++ [ActivityEntry.init ty dur cal notes now] }).stats =
          { total_activities := p.activity_history.length + 1
            total_activity_time_minutes :=
              (p.activity_history.map ActivityEntry.duration_minutes).sum + dur
            total_calories_burned :=
              (p.activity_history.map ActivityEntry.calories_burned).sum + cal }) := by
  refine ⟨?_, ?_, ?_, ?_, ?_⟩
  · intro h
    subst h
    rfl
  · intro h1 h2
    simp [Views.add_activity, h1, h2]
  · intro h1 h2 h3
    have hd : ¬ (dur ≤ 0) := by omega
    simp [Views.add_activity, h1, hd, h3]
  · intro h1 h2 h3 hp
    have hd : ¬ (dur ≤ 0) := by omega
    have hc : ¬ (cal < 0) := by omega
    simp [Views.add_activity, ProfileStorage.add_activity_to_profile, h1, hd, hc, hp]
  · intro p h1 h2 h3 hp
    have hd : ¬ (dur ≤ 0) := by omega
    have hc : ¬ (cal < 0) := by omega
    have hs : (st.profiles.find? (fun kv => kv.1 == uid)).isSome = true := by
      simp only [ProfileStorage.get_profile] at hp
      rcases hfind : st.profiles.find? (fun kv => kv.1 == uid) with - | kv
      · rw [hfind] at hp; exact absurd hp (by simp)
      · rw [hfind]; rfl
    have hadd : ProfileStorage.add_activity_to_profile st uid ty dur cal notes now =
        (true, ProfileStorage.save_all
          { st with
              profiles :=
                setEntry st.profiles uid
                  { p with
                      activity_history :=
                        p.activity_history ++
                          [ActivityEntry.init ty dur cal notes now] } }) := by
      simp [ProfileStorage.add_activity_to_profile, hp, UserProfile.add_activity]
    have hget2 : ProfileStorage.get_profile
        (ProfileStorage.save_all
          { st with
              profiles :=
                setEntry st.profiles uid
                  { p with
                      activity_history :=
                        p.activity_history ++
                          [ActivityEntry.init ty dur cal notes now] } }) uid =
        some { p with activity_history :=
            p.activity_history ++ [ActivityEntry.init ty dur cal notes now] } := by
      simp [ProfileStorage.get_profile, ProfileStorage.save_all,
        find?_setEntry_self st.profiles uid _ hs]
    constructor
    · simp [Views.add_activity, h1, hd, hc, hadd, hget2]
    · simp [UserProfileSerializer.serialize, UserProfile.get_total_activities,
        UserProfile.get_total_activity_time, UserProfile.get_total_calories_burned,
        ActivityEntry.init]

/-- Witness for C7: a valid activity appended to u1 of the sample state. -/
theorem c7_witness :
    ∃ resp : ApiResponse × DurableState,
      Views.add_activity sampleState "u1" "running" 30 300 "evening" "t5" = resp
      ∧ resp.1.status_code = 201
      ∧ (UserProfileSerializer.serialize
          { sampleProfile with activity_history :=
              sampleProfile.activity_history ++ [ActivityEntry.init "running" 30 300 "evening" "t5"] }).stats =
        { total_activities := 1, total_activity_time_minutes := 30
          total_calories_burned := 300 } := by
  obtain ⟨h1, h2⟩ := (c7_add_activity sampleState "u1" "running" 30 300 "evening" "t5").2.2.2.2
    sampleProfile (by decide) (by decide) (by decide) rfl
  exact ⟨_, h1, rfl, by rw [h2]; rfl⟩

/-! ## C8: role filter on listProfiles -/

lemma serialize_list_view_filter (ps : List UserProfile) (r : String) :
    UserProfileSerializer.serialize_list_view (ps.filter (fun p => p.role.value == r)) =
      (UserProfileSerializer.serialize_list_view ps).filter (fun item => item.role == r) := by
  unfold UserProfileSerializer.serialize_list_view
  rw [List.filter_map]
  rfl

/-- C8 (amended): a recognized role filter returns 200 with exactly the
rows of the unfiltered listing whose role matches, in the same relative
order (the filtered listing is literally a filter of the unfiltered one,
so an empty match is still a 200 success); a non-empty unrecognized role
returns 400; but an empty-string role is falsy in Python, so it is
treated as no filter at all and returns the full 200 listing instead of
the 400 the claim expects for unrecognized roles. -/
theorem c8_list_profiles (st : DurableState) :
    Views.list_profiles st Option.none =
      apiSuccess
        (Payload.listing (UserProfileSerializer.serialize_list_view
          (ProfileStorage.get_all_profiles st)))
        ("Retrieved " ++ toString (ProfileStorage.get_all_profiles st).length ++ " profile(s)")
        200
    ∧ (∀ r, (r = "student" ∨ r = "gym_teacher") →
        Views.list_profiles st (some r) =
          apiSuccess
            (Payload.listing ((UserProfileSerializer.serialize_list_view
              (ProfileStorage.get_all_profiles st)).filter (fun item => item.role == r)))
            ("Retrieved " ++ toString (ProfileStorage.get_profiles_by_role st r).length ++
              " profile(s)")
            200)
    ∧ (∀ r, r ≠ "" → ¬ (r = "student" ∨ r = "gym_teacher") →
        Views.list_profiles st (some r) = apiError invalidRoleFilterMsg 400)
    ∧ Views.list_profiles st (some "") = Views.list_profiles st Option.none := by
  refine ⟨rfl, ?_, ?_, rfl⟩
  · intro r hr
    have hne : ¬ (r = "") := by
      rcases hr with h | h <;> subst h <;> decide
    have hrec : ¬ ¬ (r = "student" ∨ r = "gym_teacher") := not_not_intro hr
    simp only [Views.list_profiles, if_neg hne, if_neg hrec]
    rw [ProfileStorage.get_profiles_by_role, serialize_list_view_filter]
  · intro r h1 h2
    simp only [Views.list_profiles, if_neg h1, if_pos h2]

/-- Witness for C8: filtering the sample state by student keeps exactly
its student row, in listing order. -/
theorem c8_witness :
    Views.list_profiles sampleState (some "student") =
      apiSuccess
        (Payload.listing ((UserProfileSerializer.serialize_list_view
          (ProfileStorage.get_all_profiles sampleState)).filter
            (fun item => item.role == "student")))
        "Retrieved 1 profile(s)" 200 := by
  have h := (c8_list_profiles sampleState).2.1 "student" (Or.inl rfl)
  rw [h]
  rfl

/-- Counterexample for C8 as stated: the empty string is not a recognized
role, yet listing with it returns 200 (the full listing), not 400. -/
theorem c8_counterexample :
    (Views.list_profiles sampleState (some "")).status_code = 200
    ∧ (Views.list_profiles sampleState (some "")).status_code ≠ 400
    ∧ ¬ ("" = "student" ∨ "" = "gym_teacher") :=
  ⟨rfl, by decide, by decide⟩

/-! ## C9: boot behavior of load_all -/

/-- A persisted record whose age field violates the entity validation. -/
def badAgeFile : Json :=
  Json.obj
    [ ("u1", Json.obj
        [ ("user_id", Json.str "u1")
        , ("name", Json.str "A")
        , ("age", Json.int 200)
        , ("role", Json.str "student") ]) ]

/-- C9: an absent backing file boots to the empty collection, and bytes
that json.load rejects, or a contained record whose values fail the
entity validation (a caught ValueError), are logged and reset to empty;
but a file holding valid JSON that is not an object, such as the array
written as a pair of square brackets, raises an uncaught AttributeError
from data.items() and the boot crashes instead of resetting. -/
theorem c9_load_boot :
    load_all FileData.absent "t0" = LoadOutcome.ok []
    ∧ load_all FileData.invalidJson "t0" = LoadOutcome.reset jsonDecodeErrorMsg
    ∧ load_all (FileData.json badAgeFile) "t0" = LoadOutcome.reset ageValidationMsg
    ∧ load_all (FileData.json (Json.arr [])) "t0" =
        LoadOutcome.crash (PyError.attributeError "object has no attribute items") :=
  ⟨rfl, rfl, rfl, rfl⟩

end Octofit
